import Mathlib

/-!
# Verification of the Finance-Assistant routing/orchestration core

Shallow embedding of the orchestration subsystem of the Finance-Assistant
repository (`src/orchestration/router.py`, `supervisor.py`, `nodes.py`,
`types.py` and `src/utils/context_manager.py`), together with proofs that
settle the frozen claims about this code.

Modelling conventions:
* Python `float` confidence arithmetic is modelled with `ℚ` (all constants
  and comparisons in the router are far from any binary-rounding boundary).
* Python dicts that are used as insertion-ordered maps (`agent_results`,
  keyword tables) are modelled by association lists in insertion order.
* The regular expressions of `EXACT_PATTERNS` are embedded as terms of a
  small regex language `Rx` with an executable backtracking matcher
  (`Rx.search` below corresponds to `re.search` on the lower-cased
  question).  Greedy vs. lazy quantifiers only affect which match is
  found, not whether one exists, so `plus` covers both `+` and `+?`.
* External collaborators (the LLM generation service, `json.loads`, the
  five domain handlers) are parameters of the corresponding functions,
  exactly as the spec designates them as opaque collaborators.
-/

namespace FinanceAssistant

/-! ## Small regex language (embedding of Python `re` patterns used here) -/

/-- Character classes appearing in the router's patterns.
`word` is `\w` (ASCII letters, digits, underscore — the questions are
ASCII), `digit` is `\d`, `oneOf s` is a set such as `[ymd]`. -/
inductive CharCls where
  | word
  | digit
  | oneOf (s : String)
deriving DecidableEq, Repr

def CharCls.test : CharCls → Char → Bool
  | .word, c => c.isAlphanum || c = '_'
  | .digit, c => c.isDigit
  | .oneOf s, c => s.data.contains c

/-- Regex syntax: enough for every pattern in `EXACT_PATTERNS`.
`nla` is negative lookahead `(?!...)`; `\b` after a word character is
encoded as `nla (cls word)` (the boundary holds iff the next character is
not a word character, given that the previous one is). -/
inductive Rx where
  | eps
  | anyc                -- `.` : any character except newline
  | cls (c : CharCls)
  | lit (s : String)
  | seq (a b : Rx)
  | alt (a b : Rx)
  | opt (a : Rx)        -- `a?`
  | plus (a : Rx)       -- `a+` / `a+?`
  | nla (a : Rx)        -- `(?!a)`
deriving DecidableEq, Repr

/-- Strip a literal prefix, returning the remainder. -/
def stripLit : List Char → List Char → Option (List Char)
  | [], cs => some cs
  | _, [] => none
  | p :: ps, c :: cs => if p = c then stripLit ps cs else none

/-- Iterate a one-step matcher between 1 and `fuel + 1` times
(backtracking: all reachable remainders are returned). -/
def iterPlus (f : List Char → List (List Char)) : Nat → List Char → List (List Char)
  | 0, cs => f cs
  | n + 1, cs => f cs ++ (f cs).flatMap (iterPlus f n)

/-- Backtracking prefix matcher: all remainders after matching `r` at the
start of the input.  `fuel` bounds `plus` repetitions; callers pass
`input.length + 1`, which is sufficient because every `plus` body in the
embedded patterns consumes at least one character per repetition. -/
def Rx.run (fuel : Nat) : Rx → List Char → List (List Char)
  | .eps, cs => [cs]
  | .anyc, [] => []
  | .anyc, c :: cs => if c = '\n' then [] else [cs]
  | .cls _, [] => []
  | .cls k, c :: cs => if k.test c then [cs] else []
  | .lit s, cs =>
      match stripLit s.data cs with
      | some r => [r]
      | none => []
  | .seq a b, cs => (Rx.run fuel a cs).flatMap (Rx.run fuel b)
  | .alt a b, cs => Rx.run fuel a cs ++ Rx.run fuel b cs
  | .opt a, cs => cs :: Rx.run fuel a cs
  | .plus a, cs => iterPlus (Rx.run fuel a) fuel cs
  | .nla a, cs => if (Rx.run fuel a cs).isEmpty then [cs] else []

/-- `re.search`: does `r` match at any position of `s`? -/
def Rx.search (r : Rx) (s : String) : Bool :=
  s.data.tails.any (fun t => !(Rx.run (s.length + 1) r t).isEmpty)

/-- Concatenation of a list of regexes. -/
def rcat (l : List Rx) : Rx := l.foldr Rx.seq Rx.eps

/-- Alternation `(?:a|b|...)` of a non-empty list (an empty list yields a
never-matching regex). -/
def ror : List Rx → Rx
  | [] => Rx.nla Rx.eps
  | [r] => r
  | r :: rs => Rx.alt r (ror rs)

def rs (s : String) : Rx := Rx.lit s
def rop (r : Rx) : Rx := Rx.opt r
def rw : Rx := Rx.cls CharCls.word
def rwp : Rx := Rx.plus (Rx.cls CharCls.word)
def rdp : Rx := Rx.plus (Rx.cls CharCls.digit)
def ranyp : Rx := Rx.plus Rx.anyc

/-! ## Data model (`src/orchestration/types.py`) -/

/-- `AgentType` enum: the closed set of specialized agents. -/
inductive AgentType where
  | education
  | goal_planning
  | portfolio
  | market
  | news
deriving DecidableEq, Repr

/-- `.value` of the Python enum member. -/
def AgentType.value : AgentType → String
  | .education => "education"
  | .goal_planning => "goal_planning"
  | .portfolio => "portfolio"
  | .market => "market"
  | .news => "news"

/-- `AgentType(s)` constructor lookup; `none` models the `ValueError`
raised on an invalid name. -/
def AgentType.ofValue (s : String) : Option AgentType :=
  if s = "education" then some .education
  else if s = "goal_planning" then some .goal_planning
  else if s = "portfolio" then some .portfolio
  else if s = "market" then some .market
  else if s = "news" then some .news
  else none

/-- `route` field of `RouterDecision` (`Literal["direct", "supervisor"]`). -/
inductive Route where
  | direct
  | supervisor
deriving DecidableEq, Repr

/-- `execution_mode` of `SupervisorDecision`
(`Literal["single", "sequential", "parallel"]`). -/
inductive Mode where
  | single
  | sequential
  | parallel
deriving DecidableEq, Repr

/-- `UserContext` TypedDict (`total=False`: every key may be absent, hence
`Option`).  `active_goals` distinguishes an absent key (`none`) from a
stored list because the code tests both `dict.get` truthiness and key
membership. -/
structure UserContext where
  has_portfolio : Option Bool := none
  portfolio_value : Option ℚ := none
  active_goals : Option (List Int) := none
  risk_tolerance : Option String := none
  investment_stage : Option String := none
  last_agent : Option String := none
deriving DecidableEq, Repr

/-- The `context` dict built by the nodes and passed to `fast_route` /
`supervisor_route`: `{"user_context": ..., "last_agent": ...}`. -/
structure RouteContext where
  user_context : UserContext := {}
  last_agent : Option String := none
deriving DecidableEq, Repr

/-- `context_hints : Dict[str, Any]` of `RouterDecision`.  The router
stores exactly one of three shapes; they are modelled as a closed sum.
The matched pattern is stored as its embedded `Rx` term (the Python code
stores the regex source text). -/
inductive ContextHints where
  | empty
  | patternMatched (pattern : Rx)
  | keywordScores (scores : List (String × ℚ)) (winner_score margin : ℚ)
deriving DecidableEq, Repr

/-- `RouterDecision` pydantic model. -/
structure RouterDecision where
  route : Route
  agent : Option AgentType := none
  confidence : ℚ
  reasoning : String
  context_hints : ContextHints := .empty
deriving DecidableEq, Repr

/-- `SupervisorDecision` pydantic model. -/
structure SupervisorDecision where
  primary_agent : AgentType
  secondary_agents : List AgentType := []
  execution_mode : Mode := .single
  reasoning : String
  workflow_steps : List String := []
deriving DecidableEq, Repr

/-- `ExecutionPlan` TypedDict. -/
structure ExecutionPlan where
  agents_queue : List AgentType
  current_index : Nat
  needs_synthesis : Bool
deriving DecidableEq, Repr

/-- One `{role, content}` message dict. -/
structure Msg where
  role : String
  content : String
deriving DecidableEq, Repr

/-- `FinancialAssistantState`: the record threaded through the graph. -/
structure AssistantState where
  messages : List Msg := []
  router_decision : Option RouterDecision := none
  supervisor_decision : Option SupervisorDecision := none
  user_context : UserContext := {}
  agent_results : List (String × String) := []
  current_agent : Option String := none
  agents_completed : List String := []
  execution_plan : Option ExecutionPlan := none
  final_response : Option String := none
deriving DecidableEq, Repr

/-! ## String helpers mirroring the Python primitives used by the core -/

/-- `str.lower()` (the questions are ASCII). -/
def pyLower (s : String) : String := ⟨s.data.map Char.toLower⟩

/-- `str.upper()`. -/
def pyUpper (s : String) : String := ⟨s.data.map Char.toUpper⟩

/-- Python `needle in hay` substring test. -/
def isSubstr (needle hay : String) : Bool :=
  hay.data.tails.any (fun t => needle.data.isPrefixOf t)

/-- Whitespace splitter: accumulates the current word (reversed) and
emits it at each whitespace run, dropping empty pieces. -/
def splitWords : List Char → List Char → List String
  | [], acc => if acc = [] then [] else [⟨acc.reverse⟩]
  | c :: cs, acc =>
    if c.isWhitespace then
      if acc = [] then splitWords cs [] else (⟨acc.reverse⟩ : String) :: splitWords cs []
    else splitWords cs (c :: acc)

/-- `str.split()` with no argument: whitespace-separated words (the
questions contain only ASCII whitespace). -/
def pyWords (s : String) : List String := splitWords s.data []

/-- `len(question.split())`. -/
def wordCount (s : String) : Nat := (pyWords s).length

/-- Insertion-ordered dict update `d[k] = v`: overwrite in place if the
key exists, else append. -/
def dictInsert (d : List (String × String)) (k v : String) : List (String × String) :=
  match d with
  | [] => [(k, v)]
  | (k₀, v₀) :: rest =>
      if k₀ = k then (k₀, v) :: rest else (k₀, v₀) :: dictInsert rest k v

/-- Two-decimal rendering of a rational, standing in for CPython's
`f"{x:.2f}"` float formatting (used only inside `reasoning` strings). -/
def fmt2 (q : ℚ) : String :=
  let sign := if q < 0 then "-" else ""
  let cents : Nat := (round (|q| * 100) : ℤ).toNat
  let intPart := cents / 100
  let frac := cents % 100
  sign ++ toString intPart ++ "." ++ (if frac < 10 then "0" else "") ++ toString frac

/-! ## `EXACT_PATTERNS` (`router.py`), one `Rx` term per regex, in source
order.  Patterns are applied to the lower-cased question, exactly as in
the code; literals therefore keep their original casing (upper-case
literals such as ticker symbols can never fire — that is the source's
behaviour, not a transcription error).  `\b` after a word character is
encoded as `nla \w`; `\s` as its whitespace set. -/

def wsCls : Rx := Rx.cls (CharCls.oneOf " \t\n\x0b\x0c\r")

def portfolioPatterns : List Rx := [
  -- (?:how (?:is|did)|what's|analyze) my portfolio
  rcat [ror [rcat [rs "how ", ror [rs "is", rs "did"]], rs "what\x27s", rs "analyze"],
        rs " my portfolio"],
  -- my portfolio (?:performance|return|diversification|risk|value|allocation)
  rcat [rs "my portfolio ",
        ror [rs "performance", rs "return", rs "diversification", rs "risk",
             rs "value", rs "allocation"]],
  -- analyze my (?:holdings|investments|positions)
  rcat [rs "analyze my ", ror [rs "holdings", rs "investments", rs "positions"]],
  -- (?:am I|is my portfolio) (?:diversified|concentrated|balanced)
  rcat [ror [rs "am I", rs "is my portfolio"], rs " ",
        ror [rs "diversified", rs "concentrated", rs "balanced"]],
  -- compare (?:my )?portfolio (?:to|vs|against) (?:S&P|benchmark|market)
  rcat [rs "compare ", rop (rs "my "), rs "portfolio ",
        ror [rs "to", rs "vs", rs "against"], rs " ",
        ror [rs "S&P", rs "benchmark", rs "market"]],
  -- rebalanc(?:e|ing) (?:my )?portfolio
  rcat [rs "rebalanc", ror [rs "e", rs "ing"], rs " ", rop (rs "my "), rs "portfolio"],
  -- my (?:stocks|shares|holdings|positions)
  rcat [rs "my ", ror [rs "stocks", rs "shares", rs "holdings", rs "positions"]]]

def goalPlanningPatterns : List Rx := [
  -- (?:I want to|I need to|help me) save (?:for|up)
  rcat [ror [rs "I want to", rs "I need to", rs "help me"], rs " save ",
        ror [rs "for", rs "up"]],
  -- (?:create|set|make|plan|build) (?:a )?(?:financial )?goal
  rcat [ror [rs "create", rs "set", rs "make", rs "plan", rs "build"], rs " ",
        rop (rs "a "), rop (rs "financial "), rs "goal"],
  -- how much (?:do I need to|should I|must I) save
  rcat [rs "how much ", ror [rs "do I need to", rs "should I", rs "must I"], rs " save"],
  -- saving for (?:a )?(?:house|home|car|education|college|wedding|retirement|vacation)
  rcat [rs "saving for ", rop (rs "a "),
        ror [rs "house", rs "home", rs "car", rs "education", rs "college",
             rs "wedding", rs "retirement", rs "vacation"]],
  -- retirement (?:goal|planning|savings|fund)
  rcat [rs "retirement ", ror [rs "goal", rs "planning", rs "savings", rs "fund"]],
  -- (?:am I|is my goal) on track
  rcat [ror [rs "am I", rs "is my goal"], rs " on track"],
  -- prioritize (?:my )?goals
  rcat [rs "prioritize ", rop (rs "my "), rs "goals"],
  -- update (?:my )?goal
  rcat [rs "update ", rop (rs "my "), rs "goal"],
  -- (?:goal|savings) (?:progress|status|update)
  rcat [ror [rs "goal", rs "savings"], rs " ", ror [rs "progress", rs "status", rs "update"]]]

def marketPatterns : List Rx := [
  -- (?:what(?:'s| is)|what's the|get|show|tell me) (?:the )?(?:\w+(?:'s)?)
  --   (?:stock|ETF|etf)? ?(?:price|max|high|low|close|open|current)
  rcat [ror [rcat [rs "what", ror [rs "\x27s", rs " is"]], rs "what\x27s the",
             rs "get", rs "show", rs "tell me"],
        rs " ", rop (rs "the "), rcat [rwp, rop (rs "\x27s")], rs " ",
        rop (ror [rs "stock", rs "ETF", rs "etf"]), rop (rs " "),
        ror [rs "price", rs "max", rs "high", rs "low", rs "close", rs "open", rs "current"]],
  -- (?:\w+) (?:stock|ETF|etf)? ?(?:price|max price|high|low|52.week)
  rcat [rwp, rs " ", rop (ror [rs "stock", rs "ETF", rs "etf"]), rop (rs " "),
        ror [rs "price", rs "max price", rs "high", rs "low",
             rcat [rs "52", Rx.anyc, rs "week"]]],
  -- (?:what(?:'s| is)|what's the|show|get) (?:the )?(?:performance|returns?|gains?) (?:of|for|on)
  rcat [ror [rcat [rs "what", ror [rs "\x27s", rs " is"]], rs "what\x27s the",
             rs "show", rs "get"],
        rs " ", rop (rs "the "),
        ror [rs "performance", rcat [rs "return", rop (rs "s")], rcat [rs "gain", rop (rs "s")]],
        rs " ", ror [rs "of", rs "for", rs "on"]],
  -- (?:how|what) (?:has|have|is|are) .+? (?:performed|performing|returned|done)
  rcat [ror [rs "how", rs "what"], rs " ", ror [rs "has", rs "have", rs "is", rs "are"],
        rs " ", ranyp, rs " ",
        ror [rs "performed", rs "performing", rs "returned", rs "done"]],
  -- performance (?:of|for) .+? (?:over|in|during|for) (?:\d+[ymd]|year|month|lifetime|YTD|ytd)
  rcat [rs "performance ", ror [rs "of", rs "for"], rs " ", ranyp, rs " ",
        ror [rs "over", rs "in", rs "during", rs "for"], rs " ",
        ror [rcat [rdp, Rx.cls (CharCls.oneOf "ymd")], rs "year", rs "month",
             rs "lifetime", rs "YTD", rs "ytd"]],
  -- (?:1|5|10) (?:year|yr|y) (?:performance|return|gains?)
  rcat [ror [rs "1", rs "5", rs "10"], rs " ", ror [rs "year", rs "yr", rs "y"], rs " ",
        ror [rs "performance", rs "return", rcat [rs "gain", rop (rs "s")]]],
  -- (?:lifetime|historical|past) (?:performance|returns?)
  rcat [ror [rs "lifetime", rs "historical", rs "past"], rs " ",
        ror [rs "performance", rcat [rs "return", rop (rs "s")]]],
  -- (?:AAPL|TSLA|MSFT|GOOGL|AMZN|NVDA|META|NFLX|FB|GOOG|CRM|AMD|INTC|ORCL|IBM|BA|DIS|WMT|JPM|BAC|V|MA)\b
  rcat [ror [rs "AAPL", rs "TSLA", rs "MSFT", rs "GOOGL", rs "AMZN", rs "NVDA",
             rs "META", rs "NFLX", rs "FB", rs "GOOG", rs "CRM", rs "AMD", rs "INTC",
             rs "ORCL", rs "IBM", rs "BA", rs "DIS", rs "WMT", rs "JPM", rs "BAC",
             rs "V", rs "MA"],
        Rx.nla rw],
  -- (?:VOO|VTI|SPY|QQQ|IVV|VEA|VWO|AGG|BND|VIG|VYM|SCHD|VUG|VTV|VO|VB)\b
  rcat [ror [rs "VOO", rs "VTI", rs "SPY", rs "QQQ", rs "IVV", rs "VEA", rs "VWO",
             rs "AGG", rs "BND", rs "VIG", rs "VYM", rs "SCHD", rs "VUG", rs "VTV",
             rs "VO", rs "VB"],
        Rx.nla rw],
  -- (?:Apple|Tesla|Microsoft|Google|Amazon|Nvidia|Meta|Netflix|Facebook|Oracle|Intel|Boeing|Disney|Walmart|JPMorgan)\s+(?:stock|share)
  rcat [ror [rs "Apple", rs "Tesla", rs "Microsoft", rs "Google", rs "Amazon",
             rs "Nvidia", rs "Meta", rs "Netflix", rs "Facebook", rs "Oracle",
             rs "Intel", rs "Boeing", rs "Disney", rs "Walmart", rs "JPMorgan"],
        Rx.plus wsCls, ror [rs "stock", rs "share"]],
  -- (?:Vanguard|iShares|SPDR|Schwab|Fidelity) .+? (?:ETF|Fund)
  rcat [ror [rs "Vanguard", rs "iShares", rs "SPDR", rs "Schwab", rs "Fidelity"],
        rs " ", ranyp, rs " ", ror [rs "ETF", rs "Fund"]],
  -- what's the market (?:doing|performance|status)
  rcat [rs "what\x27s the market ", ror [rs "doing", rs "performance", rs "status"]],
  -- how (?:is|are) (?:the )?(?:S&P|Nasdaq|Dow|(?:stock )?market|indices)
  rcat [rs "how ", ror [rs "is", rs "are"], rs " ", rop (rs "the "),
        ror [rs "S&P", rs "Nasdaq", rs "Dow", rcat [rop (rs "stock "), rs "market"],
             rs "indices"]],
  -- (?:sector|industry) performance
  rcat [ror [rs "sector", rs "industry"], rs " performance"],
  -- technical analysis (?:of|for) \w+
  rcat [rs "technical analysis ", ror [rs "of", rs "for"], rs " ", rwp],
  -- (?:RSI|moving average|MA|MACD|beta|volatility) (?:of|for) \w+
  rcat [ror [rs "RSI", rs "moving average", rs "MA", rs "MACD", rs "beta", rs "volatility"],
        rs " ", ror [rs "of", rs "for"], rs " ", rwp],
  -- compare (?:the )?fundamentals (?:of|for|between)
  rcat [rs "compare ", rop (rs "the "), rs "fundamentals ",
        ror [rs "of", rs "for", rs "between"]],
  -- (?:stock|market) technicals
  rcat [ror [rs "stock", rs "market"], rs " technicals"],
  -- earnings (?:calendar|report|announcement)
  rcat [rs "earnings ", ror [rs "calendar", rs "report", rs "announcement"]],
  -- market (?:overview|sentiment|breadth|conditions)
  rcat [rs "market ", ror [rs "overview", rs "sentiment", rs "breadth", rs "conditions"]]]

def newsPatterns : List Rx := [
  -- should I invest in \w+
  rcat [rs "should I invest in ", rwp],
  -- (?:thinking about|considering|researching) investing (?:in)?
  rcat [ror [rs "thinking about", rs "considering", rs "researching"],
        rs " investing ", rop (rs "in")],
  -- what are (?:the )?(?:investment )?risks? (?:of|for|in) \w+
  rcat [rs "what are ", rop (rs "the "), rop (rs "investment "),
        rs "risk", rop (rs "s"), rs " ", ror [rs "of", rs "for", rs "in"], rs " ", rwp],
  -- investment (?:thesis|case|opportunity|analysis) (?:for|of|on)
  rcat [rs "investment ", ror [rs "thesis", rs "case", rs "opportunity", rs "analysis"],
        rs " ", ror [rs "for", rs "of", rs "on"]],
  -- is (?:now|this|it) (?:a )?good time to (?:invest|buy)
  rcat [rs "is ", ror [rs "now", rs "this", rs "it"], rs " ", rop (rs "a "),
        rs "good time to ", ror [rs "invest", rs "buy"]],
  -- (?:bull|bear) case (?:for|of|on) \w+
  rcat [ror [rs "bull", rs "bear"], rs " case ", ror [rs "for", rs "of", rs "on"],
        rs " ", rwp],
  -- compare .+ (?:for investment|to invest|as an? investment)
  rcat [rs "compare ", ranyp, rs " ",
        ror [rs "for investment", rs "to invest",
             rcat [rs "as a", rop (rs "n"), rs " investment"]]],
  -- due diligence (?:on|for) \w+
  rcat [rs "due diligence ", ror [rs "on", rs "for"], rs " ", rwp],
  -- (?:investment )?(?:timing|opportunity) (?:for|of)
  rcat [rop (rs "investment "), ror [rs "timing", rs "opportunity"], rs " ",
        ror [rs "for", rs "of"]],
  -- watchlist (?:news|updates?)
  rcat [rs "watchlist ", ror [rs "news", rcat [rs "update", rop (rs "s")]]]]

def educationPatterns : List Rx := [
  -- what (?:is|are|does) (?:a |an |the )?(?!my|the market)
  rcat [rs "what ", ror [rs "is", rs "are", rs "does"], rs " ",
        rop (ror [rs "a ", rs "an ", rs "the "]),
        Rx.nla (ror [rs "my", rs "the market"])],
  -- (?:explain|define|describe|clarify) (?:what |how |why )?(?!my|the market)
  rcat [ror [rs "explain", rs "define", rs "describe", rs "clarify"], rs " ",
        rop (ror [rs "what ", rs "how ", rs "why "]),
        Rx.nla (ror [rs "my", rs "the market"])],
  -- how (?:do|does) .+? work
  rcat [rs "how ", ror [rs "do", rs "does"], rs " ", ranyp, rs " work"],
  -- (?:what's the |what is the )?difference between
  rcat [rop (ror [rs "what\x27s the ", rs "what is the "]), rs "difference between"],
  -- (?:tell me about|teach me about|help me understand)
  ror [rs "tell me about", rs "teach me about", rs "help me understand"],
  -- (?:learn|understand) (?:about |how |what )
  rcat [ror [rs "learn", rs "understand"], rs " ", ror [rs "about ", rs "how ", rs "what "]]]

/-- `EXACT_PATTERNS` dict, in insertion (= iteration) order. -/
def EXACT_PATTERNS : List (AgentType × List Rx) :=
  [(.portfolio, portfolioPatterns),
   (.goal_planning, goalPlanningPatterns),
   (.market, marketPatterns),
   (.news, newsPatterns),
   (.education, educationPatterns)]

/-! ## `KEYWORD_WEIGHTS` (`router.py`), in dict insertion order.
Upper-case keys can never be found in the lower-cased question; they are
kept verbatim from the source. -/

def portfolioKeywords : List (String × Nat) :=
  [("portfolio", 3), ("holdings", 3), ("positions", 3), ("my stocks", 3),
   ("diversification", 3), ("concentration", 3), ("allocation", 3),
   ("rebalance", 3), ("my shares", 3),
   ("invested", 2), ("sharpe", 2), ("beta", 2), ("volatility", 2),
   ("risk", 2), ("performance", 2), ("return", 2), ("benchmark", 2),
   ("value", 1), ("stocks", 1), ("shares", 1)]

def goalPlanningKeywords : List (String × Nat) :=
  [("goal", 3), ("save", 3), ("saving", 3), ("target", 3),
   ("retirement", 3), ("emergency fund", 3), ("down payment", 3),
   ("plan", 2), ("need", 2), ("afford", 2), ("years", 2),
   ("monthly", 2), ("annual", 2), ("priority", 2),
   ("money", 1), ("future", 1), ("fund", 1), ("budget", 1)]

def marketKeywords : List (String × Nat) :=
  [("AAPL", 4), ("TSLA", 4), ("MSFT", 4), ("GOOGL", 4), ("AMZN", 4), ("NVDA", 4), ("META", 4),
   ("VOO", 4), ("VTI", 4), ("SPY", 4), ("QQQ", 4), ("IVV", 4),
   ("performance", 4), ("returns", 4), ("return", 4), ("gains", 4),
   ("stock price", 4), ("max price", 4), ("stock high", 4), ("stock low", 4),
   ("52-week", 4), ("52 week", 4), ("all-time high", 4),
   ("1 year", 4), ("5 year", 4), ("10 year", 4), ("lifetime", 4), ("YTD", 4),
   ("performed", 4), ("performing", 4),
   ("market", 3), ("sector", 3), ("index", 3), ("indices", 3),
   ("S&P", 3), ("Nasdaq", 3), ("Dow", 3), ("technical", 3),
   ("fundamentals", 3), ("earnings", 3), ("ETF", 3), ("Vanguard", 3),
   ("RSI", 2), ("moving average", 2), ("P/E", 2), ("PE ratio", 2),
   ("revenue", 2), ("MACD", 2), ("momentum", 2),
   ("Apple", 2), ("Tesla", 2), ("Microsoft", 2), ("Google", 2), ("Amazon", 2),
   ("price", 1), ("stock", 1), ("trading", 1), ("volume", 1), ("high", 1), ("low", 1)]

def newsKeywords : List (String × Nat) :=
  [("should I invest", 3), ("investment", 3), ("risks", 3),
   ("opportunity", 3), ("timing", 3), ("thesis", 3),
   ("bull case", 3), ("bear case", 3), ("due diligence", 3),
   ("news", 2), ("recent", 2), ("developments", 2),
   ("considering", 2), ("thinking about", 2), ("researching", 2),
   ("watchlist", 2),
   ("buy", 1), ("research", 1), ("looking at", 1), ("interested", 1)]

def educationKeywords : List (String × Nat) :=
  [("what is", 3), ("explain", 3), ("how does", 3),
   ("difference between", 3), ("teach me", 3), ("define", 3),
   ("learn", 2), ("understand", 2), ("concept", 2), ("work", 2),
   ("help", 1), ("question", 1), ("about", 1)]

/-- `KEYWORD_WEIGHTS` dict, in insertion (= iteration) order. -/
def KEYWORD_WEIGHTS : List (AgentType × List (String × Nat)) :=
  [(.portfolio, portfolioKeywords),
   (.goal_planning, goalPlanningKeywords),
   (.market, marketKeywords),
   (.news, newsKeywords),
   (.education, educationKeywords)]

/-! ## Fast Router (`router.py`) -/

def DIRECT_ROUTE_THRESHOLD : ℚ := 85 / 100

/-- `_adjust_confidence_for_context`. -/
def adjust_confidence_for_context (confidence : ℚ) (agent_type : AgentType)
    (context : RouteContext) : ℚ :=
  -- boost if same agent was just used (topic continuity)
  let c := if context.last_agent = some agent_type.value
    then confidence + 5 / 100 else confidence
  let uc := context.user_context
  -- portfolio: reduce if the user has no portfolio (dict default: True)
  let c := if agent_type = .portfolio ∧ uc.has_portfolio.getD true = false
    then c - 2 / 10 else c
  -- goal planning: boost if the user has active goals (truthy list)
  let c := if agent_type = .goal_planning ∧ (uc.active_goals.getD []) ≠ []
    then c + 5 / 100 else c
  -- news: boost if the user is in the research phase
  let c := if agent_type = .news ∧ uc.investment_stage = some "potential"
    then c + 5 / 100 else c
  max 0 (min 1 c)

/-- `_calculate_keyword_score`: weighted substring hits, normalized by
`max(word_count, 5)` and capped at 10. -/
def calculate_keyword_score (question : String) (keywords : List (String × Nat)) : ℚ :=
  let total : Nat := (keywords.filter (fun kw => isSubstr kw.1 question)).foldl
    (fun acc kw => acc + kw.2) 0
  let normalized : ℚ := ((total : ℚ) / ((max (wordCount question) 5 : Nat) : ℚ)) * 10
  min normalized 10

/-- `_calculate_confidence`. -/
def calculate_confidence (winner_score runner_up_score : ℚ)
    (context : Option RouteContext) (winner : AgentType) : ℚ :=
  if winner_score = 0 then 0
  else
    let base := min (winner_score / 10) (9 / 10)
    let margin := winner_score - runner_up_score
    let base :=
      if margin > 3 then base + 1 / 10
      else if margin > 2 then base + 5 / 100
      else if margin < 1 then base - 15 / 100
      else base
    let base := match context with
      | some c => adjust_confidence_for_context base winner c
      | none => base
    max 0 (min 1 base)

/-- Stable insertion into a descending-by-score list (later elements go
after earlier ones with an equal score). -/
def insertByScoreDesc (x : AgentType × ℚ) : List (AgentType × ℚ) → List (AgentType × ℚ)
  | [] => [x]
  | y :: ys => if x.2 > y.2 then x :: y :: ys else y :: insertByScoreDesc x ys

/-- `sorted(scores.items(), key=..., reverse=True)`: stable descending sort. -/
def sortByScoreDesc (l : List (AgentType × ℚ)) : List (AgentType × ℚ) :=
  l.foldl (fun acc x => insertByScoreDesc x acc) []

/-- Reasoning text of a pattern hit.  The Python code interpolates the
regex source text; here the embedded pattern term is rendered instead. -/
def patternReasoning (p : Rx) : String :=
  "Exact pattern match: \x27" ++ reprStr p ++ "\x27"

/-- Confidence of a pattern hit: base 0.95, context-adjusted when a
context is given. -/
def patternConfidence (agent_type : AgentType) (context : Option RouteContext) : ℚ :=
  match context with
  | some c => adjust_confidence_for_context (95 / 100) agent_type c
  | none => 95 / 100

/-- Inner loop of `_try_pattern_matching` over one agent's pattern list:
a hit below the threshold falls through to the next pattern. -/
def scanAgentPatterns (ql : String) (context : Option RouteContext)
    (agent_type : AgentType) : List Rx → Option RouterDecision
  | [] => none
  | p :: ps =>
    if p.search ql then
      let confidence := patternConfidence agent_type context
      if DIRECT_ROUTE_THRESHOLD ≤ confidence then
        some { route := .direct, agent := some agent_type, confidence := confidence,
               reasoning := patternReasoning p, context_hints := .patternMatched p }
      else scanAgentPatterns ql context agent_type ps
    else scanAgentPatterns ql context agent_type ps

/-- Outer loop of `_try_pattern_matching` over `EXACT_PATTERNS`. -/
def scanPatternTable (ql : String) (context : Option RouteContext) :
    List (AgentType × List Rx) → Option RouterDecision
  | [] => none
  | (agent_type, ps) :: rest =>
    match scanAgentPatterns ql context agent_type ps with
    | some d => some d
    | none => scanPatternTable ql context rest

/-- `_try_pattern_matching`. -/
def try_pattern_matching (ql : String) (context : Option RouteContext) :
    Option RouterDecision :=
  scanPatternTable ql context EXACT_PATTERNS

/-- `_try_keyword_scoring`. -/
def try_keyword_scoring (ql : String) (context : Option RouteContext) :
    Option RouterDecision :=
  let scores : List (AgentType × ℚ) :=
    KEYWORD_WEIGHTS.map (fun p => (p.1, calculate_keyword_score ql p.2))
  if scores.isEmpty then none
  else
    let sorted := sortByScoreDesc scores
    let winnerPair := sorted.headD (AgentType.education, 0)
    let winner := winnerPair.1
    let winner_score := winnerPair.2
    let runner_up_score :=
      if sorted.length > 1 then (sorted[1]?.getD (AgentType.education, 0)).2 else 0
    let confidence := calculate_confidence winner_score runner_up_score context winner
    if DIRECT_ROUTE_THRESHOLD ≤ confidence then
      some { route := .direct, agent := some winner, confidence := confidence,
             reasoning := "Keyword score: " ++ fmt2 winner_score ++
               " (margin: " ++ fmt2 (winner_score - runner_up_score) ++ ")",
             context_hints := .keywordScores
               ((sorted.take 3).map (fun p => (p.1.value, p.2)))
               winner_score (winner_score - runner_up_score) }
    else none

/-- `_fallback_to_supervisor` (the default `context_hints=None` becomes
the empty dict). -/
def fallback_to_supervisor (reason : String) (context_hints : ContextHints := .empty) :
    RouterDecision :=
  { route := .supervisor, agent := none, confidence := 0,
    reasoning := reason, context_hints := context_hints }

/-- `fast_route`: pattern phase, then keyword phase, then supervisor
fallback. -/
def fast_route (question : String) (context : Option RouteContext := none) :
    RouterDecision :=
  let question_lower := pyLower question
  match try_pattern_matching question_lower context with
  | some d => d
  | none =>
    match try_keyword_scoring question_lower context with
    | some d => d
    | none => fallback_to_supervisor "No confident pattern or keyword match found"

/-! ## Supervisor (`supervisor.py`)

`supervisor_route` sends a prompt to the external generation service and
parses the raw reply; the service and Python's `json.loads` are opaque
collaborators, passed as parameters. -/

def openBraceChar : Char := Char.ofNat 123
def closeBraceChar : Char := Char.ofNat 125

/-- `re.search(r"\x7b.*\x7d", response, re.DOTALL)` succeeds iff some
opening brace occurs strictly before some closing brace. -/
def hasJsonBlock (response : String) : Bool :=
  go response.data
where
  go : List Char → Bool
    | [] => false
    | c :: cs => if c = openBraceChar then cs.contains closeBraceChar else go cs

/-- The fields `_parse_supervisor_response` reads from the decoded JSON
object (`none` / `[]` model absent keys, matching the `dict.get`
defaults). -/
structure SupervisorJson where
  primary_agent : Option String := none
  secondary_agents : List String := []
  execution_mode : Option String := none
  reasoning : Option String := none
deriving DecidableEq, Repr

def sq : String := ⟨[Char.ofNat 39]⟩

/-- The `SupervisorDecision` built by `_fallback_decision` for a given
agent. -/
def mkFallbackDecision (agent : AgentType) (error_msg : String) : SupervisorDecision :=
  { primary_agent := agent, secondary_agents := [], execution_mode := .single,
    reasoning := "Fallback routing (" ++ error_msg ++ "): Heuristic matched " ++
      sq ++ agent.value ++ sq,
    workflow_steps := [] }

/-- `_fallback_decision`: keyword scan in source order.  The tax branch
executes `AgentType.TAX`, but the `AgentType` enum has no member `TAX`,
so that branch raises `AttributeError`; the raise is modelled as `none`. -/
def fallback_decision (question : String) (error_msg : String) :
    Option SupervisorDecision :=
  let question_lower := pyLower question
  if ["portfolio", "holdings", "my stocks"].any (fun w => isSubstr w question_lower) then
    some (mkFallbackDecision .portfolio error_msg)
  else if ["save", "goal", "retirement plan"].any (fun w => isSubstr w question_lower) then
    some (mkFallbackDecision .goal_planning error_msg)
  else if ["market", "sector", "index"].any (fun w => isSubstr w question_lower) then
    some (mkFallbackDecision .market error_msg)
  else if ["invest", "should i", "risks"].any (fun w => isSubstr w question_lower) then
    some (mkFallbackDecision .news error_msg)
  else if ["tax", "deduction", "ira", "401k"].any (fun w => isSubstr w question_lower) then
    none  -- `agent = AgentType.TAX` : AttributeError, no such enum member
  else
    some (mkFallbackDecision .education error_msg)

/-- `_parse_supervisor_response`.  `loads` is `json.loads` on the regex
match (external; `none` models `JSONDecodeError`/`KeyError`/`TypeError`,
whose message is abstracted to a fixed string).  A `none` result models
an uncaught exception escaping the function. -/
def parse_supervisor_response (loads : String → Option SupervisorJson)
    (response : String) (question : String) : Option SupervisorDecision :=
  if hasJsonBlock response then
    match loads response with
    | some data =>
      let primary_agent_str := data.primary_agent.getD "education"
      let primary_agent := (AgentType.ofValue primary_agent_str).getD .education
      let secondary_agents := data.secondary_agents.filterMap AgentType.ofValue
      let execution_mode_str := data.execution_mode.getD "single"
      let execution_mode :=
        if execution_mode_str = "single" then Mode.single
        else if execution_mode_str = "sequential" then Mode.sequential
        else if execution_mode_str = "parallel" then Mode.parallel
        else Mode.single
      let reasoning := data.reasoning.getD "Supervisor routing decision"
      let workflow_steps :=
        if execution_mode = Mode.sequential ∧ secondary_agents ≠ [] then
          let agents := primary_agent :: secondary_agents
          (agents.enum.map fun p =>
            toString (p.1 + 1) ++ ". Call " ++ p.2.value ++ " agent") ++
            [toString (agents.length + 1) ++ ". Synthesize results"]
        else []
      some { primary_agent := primary_agent, secondary_agents := secondary_agents,
             execution_mode := execution_mode, reasoning := reasoning,
             workflow_steps := workflow_steps }
    | none => fallback_decision question "Parsing error"
  else fallback_decision question "No JSON in response"

/-! ## Context Trimmer (`src/utils/context_manager.py`) -/

def DEFAULT_MAX_MESSAGES : Nat := 10

/-- `convert_to_dict_messages`: the state's messages are already in dict
form, so the conversion is the identity branch of the Python function. -/
def convert_to_dict_messages (messages : List Msg) : List Msg := messages

/-- Python `max_messages or DEFAULT_MAX_MESSAGES` (`None` and `0` both
fall back to the default). -/
def orDefaultMax : Option Nat → Nat
  | some m => if m = 0 then DEFAULT_MAX_MESSAGES else m
  | none => DEFAULT_MAX_MESSAGES

/-- `trim_conversation_history` with the default `strategy="last"`. -/
def trim_conversation_history (messages : List Msg)
    (max_messages : Option Nat := none) : List Msg :=
  if messages = [] then messages
  else
    let dict_messages := convert_to_dict_messages messages
    let m := orDefaultMax max_messages
    if dict_messages.length ≤ m then dict_messages
    else dict_messages.drop (dict_messages.length - m)

/-- `agent_context_sizes` dict inside `trim_for_agent`. -/
def agent_context_sizes : List (String × Nat) :=
  [("education", 6), ("market", 6), ("news", 6),
   ("goal_planning", 15), ("portfolio", 15), ("general", 10)]

/-- `dict.get(key, default)` on a string-keyed table. -/
def dictGetNat (d : List (String × Nat)) (k : String) (dflt : Nat) : Nat :=
  match d with
  | [] => dflt
  | (k₀, v) :: rest => if k₀ = k then v else dictGetNat rest k dflt

/-- `trim_for_agent`. -/
def trim_for_agent (messages : List Msg) (agent_type : String := "general") : List Msg :=
  trim_conversation_history messages
    (some (dictGetNat agent_context_sizes agent_type DEFAULT_MAX_MESSAGES))

/-! ## Graph nodes and conditional edges (`nodes.py`, wired per `graph.py`)

The five domain handlers are external collaborators
(`handlers : AgentType → List Msg → String` is the `AGENT_FUNCTIONS`
table); the supervisor's LLM round-trip is abstracted by passing the
`SupervisorDecision` that `supervisor_route` returns. -/

/-- `fast_router_node`. -/
def fast_router_node (state : AssistantState) : AssistantState :=
  if state.messages = [] then state
  else
    let last_message := state.messages.getLastD { role := "user", content := "" }
    let question := last_message.content
    let context : RouteContext :=
      { user_context := state.user_context, last_agent := state.current_agent }
    let router_decision := fast_route question (some context)
    { state with router_decision := some router_decision }

/-- `supervisor_node`, with the `supervisor_route` result supplied. -/
def supervisor_node (decision : SupervisorDecision) (state : AssistantState) :
    AssistantState :=
  let execution_plan : Option ExecutionPlan :=
    if decision.execution_mode = Mode.sequential ∨ decision.execution_mode = Mode.parallel then
      some { agents_queue := decision.primary_agent :: decision.secondary_agents,
             current_index := 0, needs_synthesis := true }
    else none
  { state with supervisor_decision := some decision, execution_plan := execution_plan }

/-- `_update_user_context`. -/
def update_user_context (question : String) (agent_type : AgentType)
    (user_context : UserContext) : UserContext :=
  let question_lower := pyLower question
  let uc :=
    if agent_type = .portfolio then
      { user_context with has_portfolio := some true, investment_stage := some "current" }
    else user_context
  let uc :=
    if agent_type = .news ∧
        (isSubstr "should i invest" question_lower ∨
         isSubstr "thinking about investing" question_lower) then
      { uc with investment_stage := some "potential" }
    else uc
  let uc :=
    if agent_type = .goal_planning ∧
        (isSubstr "create" question_lower ∨ isSubstr "new goal" question_lower) ∧
        uc.active_goals = none then
      { uc with active_goals := some [] }
    else uc
  uc

/-- `_execute_agent_node`. -/
def execute_agent_node (handlers : AgentType → List Msg → String)
    (state : AssistantState) (agent_type : AgentType) : AssistantState :=
  let messages := state.messages
  let trimmed_messages := trim_for_agent messages agent_type.value
  let response := handlers agent_type trimmed_messages
  let agent_results := dictInsert state.agent_results agent_type.value response
  let agents_completed := state.agents_completed ++ [agent_type.value]
  let new_messages := messages ++ [{ role := "assistant", content := response }]
  let last_question := (trimmed_messages.getLastD { role := "user", content := "" }).content
  let user_context := update_user_context last_question agent_type state.user_context
  let execution_plan :=
    match state.execution_plan with
    | some plan => some { plan with current_index := plan.current_index + 1 }
    | none => none
  { state with
      messages := new_messages,
      agent_results := agent_results,
      agents_completed := agents_completed,
      current_agent := some agent_type.value,
      user_context := user_context,
      execution_plan := execution_plan,
      final_response := some response }

def sepLine : String := ⟨List.replicate 70 (Char.ofNat 61)⟩

/-- `sep.join(parts)`. -/
def pyJoin (sep : String) : List String → String
  | [] => ""
  | [x] => x
  | x :: y :: rest => x ++ sep ++ pyJoin sep (y :: rest)

/-- `_synthesize_multi_agent_results`. -/
def synthesize_multi_agent_results (agent_results : List (String × String)) : String :=
  let parts := agent_results.flatMap fun p =>
    ["**" ++ pyUpper p.1 ++ " ANALYSIS**", sepLine, p.2, ""]
  let parts := parts ++
    [sepLine, "**COMPREHENSIVE ANALYSIS**", sepLine,
     "Based on the analysis from " ++ toString agent_results.length ++
       " specialized agents above, you now have a complete answer to your question."]
  pyJoin "\n" parts

/-- `synthesizer_node`. -/
def synthesizer_node (state : AssistantState) : AssistantState :=
  let agent_results := state.agent_results
  let final_response :=
    if agent_results.length = 1 then (agent_results.headD ("", "")).2
    else synthesize_multi_agent_results agent_results
  let new_messages := state.messages ++ [{ role := "assistant", content := final_response }]
  { state with messages := new_messages, final_response := some final_response }

/-- Target of the conditional edge after the fast router. -/
inductive AfterFastRouter where
  | toSupervisor
  | toAgent (a : AgentType)
deriving DecidableEq, Repr

/-- `route_after_fast_router`.  Result `none` models the `AttributeError`
of `router_decision.agent.value` when `route="direct"` but `agent=None`
(never produced by `fast_route`, see `fast_route_direct_iff_confident`). -/
def route_after_fast_router (state : AssistantState) : Option AfterFastRouter :=
  match state.router_decision with
  | none => some .toSupervisor
  | some rd =>
    if rd.route = .supervisor then some .toSupervisor
    else
      match rd.agent with
      | some a => some (.toAgent a)
      | none => none

/-- `route_after_supervisor` (the multi-agent branch routes to
`agents_to_execute[0]`, which is the primary agent). -/
def route_after_supervisor (state : AssistantState) : AgentType :=
  match state.supervisor_decision with
  | none => .education
  | some d =>
    if d.execution_mode = .single then d.primary_agent
    else (d.primary_agent :: d.secondary_agents).headD d.primary_agent

/-- Target of the conditional edge after an agent node. -/
inductive AfterAgent where
  | toSequenceRouter
  | toEnd
deriving DecidableEq, Repr

/-- `route_after_agent`. -/
def route_after_agent (state : AssistantState) : AfterAgent :=
  if state.execution_plan.isSome then .toSequenceRouter else .toEnd

/-- Target of the conditional edge after the sequence router. -/
inductive SeqStep where
  | toAgent (a : AgentType)
  | synthesize
  | toEnd
deriving DecidableEq, Repr

/-- `route_sequence` (`sequence_router_node` itself is the identity). -/
def route_sequence (state : AssistantState) : SeqStep :=
  match state.execution_plan with
  | none => .toEnd
  | some plan =>
    let agents_queue := plan.agents_queue
    let current_index := plan.current_index
    if h : current_index < agents_queue.length then
      .toAgent (agents_queue.get ⟨current_index, h⟩)
    else .synthesize

/-- Plan cursor of a state (0 when no plan), used for the execution
trace. -/
def planIndex (state : AssistantState) : Nat :=
  match state.execution_plan with
  | some p => p.current_index
  | none => 0

/-- Drive the `sequence_router` loop of the graph.  Returns the final
state and the trace of `(invoked agent, plan cursor right after that
invocation)`.  `fuel` only guarantees termination; `planFuel` below is
always sufficient because each step advances the cursor by one. -/
def run_sequence (handlers : AgentType → List Msg → String) :
    Nat → AssistantState → AssistantState × List (AgentType × Nat)
  | 0, s => (s, [])
  | fuel + 1, s =>
    match route_sequence s with
    | .toEnd => (s, [])
    | .synthesize => (synthesizer_node s, [])
    | .toAgent a =>
      let s2 := execute_agent_node handlers s a
      let r := run_sequence handlers fuel s2
      (r.1, (a, planIndex s2) :: r.2)

def planFuel (state : AssistantState) : Nat :=
  match state.execution_plan with
  | some p => p.agents_queue.length + 1
  | none => 0

/-- The conditional edge after an agent node, continued: either loop
through the sequence router or reach END. -/
def run_after_agent (handlers : AgentType → List Msg → String)
    (state : AssistantState) : AssistantState × List (AgentType × Nat) :=
  match route_after_agent state with
  | .toSequenceRouter => run_sequence handlers (planFuel state) state
  | .toEnd => (state, [])

/-- The graph from the supervisor node on: build the plan, route to the
first agent, then loop. -/
def dispatch_after_supervisor (handlers : AgentType → List Msg → String)
    (decision : SupervisorDecision) (state : AssistantState) :
    AssistantState × List (AgentType × Nat) :=
  let s1 := supervisor_node decision state
  let a0 := route_after_supervisor s1
  let s2 := execute_agent_node handlers s1 a0
  let r := run_after_agent handlers s2
  (r.1, (a0, planIndex s2) :: r.2)

/-- The whole orchestration graph for one request, starting at the
`fast_router` entry point.  `decision` is what `supervisor_route` would
return if the supervisor path is taken; `none` models the unreachable
`AttributeError` branch of `route_after_fast_router`. -/
def run_pipeline (handlers : AgentType → List Msg → String)
    (decision : SupervisorDecision) (s0 : AssistantState) :
    Option (AssistantState × List (AgentType × Nat)) :=
  let s1 := fast_router_node s0
  match route_after_fast_router s1 with
  | none => none
  | some .toSupervisor => some (dispatch_after_supervisor handlers decision s1)
  | some (.toAgent a) =>
    let s2 := execute_agent_node handlers s1 a
    let r := run_after_agent handlers s2
    some (r.1, (a, planIndex s2) :: r.2)

/-! ## Spec-side definitions (written from the spec's words, for
refinement statements) -/

/-- Per-agent window size as the spec states it: Education/Market/News =
6, GoalPlanning/Portfolio = 15, any other type = 10. -/
def specWindow (agent_type : String) : Nat :=
  if agent_type = "education" ∨ agent_type = "market" ∨ agent_type = "news" then 6
  else if agent_type = "goal_planning" ∨ agent_type = "portfolio" then 15
  else 10

/-! ## Helper lemmas -/

theorem dictGetNat_window (agent_type : String) :
    dictGetNat agent_context_sizes agent_type DEFAULT_MAX_MESSAGES =
      specWindow agent_type := by
  rcases eq_or_ne agent_type "education" with h | h1
  · subst h; decide
  rcases eq_or_ne agent_type "market" with h | h2
  · subst h; decide
  rcases eq_or_ne agent_type "news" with h | h3
  · subst h; decide
  rcases eq_or_ne agent_type "goal_planning" with h | h4
  · subst h; decide
  rcases eq_or_ne agent_type "portfolio" with h | h5
  · subst h; decide
  rcases eq_or_ne agent_type "general" with h | h6
  · subst h; decide
  simp [dictGetNat, agent_context_sizes, specWindow, DEFAULT_MAX_MESSAGES,
        h1, h2, h3, h4, h5, h6, Ne.symm h1, Ne.symm h2, Ne.symm h3,
        Ne.symm h4, Ne.symm h5, Ne.symm h6]

theorem specWindow_pos (agent_type : String) : 0 < specWindow agent_type := by
  unfold specWindow
  split_ifs <;> norm_num

end FinanceAssistant

namespace FinanceAssistant

/-- **C7.** The Context Trimmer returns exactly the last
`min(N, length)` messages in their original order, where `N` is 6 for
education/market/news, 15 for goal_planning/portfolio and 10 for any
other agent type. -/
theorem trim_for_agent_last_window (messages : List Msg) (agent_type : String) :
    trim_for_agent messages agent_type =
      messages.drop (messages.length - min (specWindow agent_type) messages.length) := by
  unfold trim_for_agent trim_conversation_history convert_to_dict_messages
  rw [dictGetNat_window]
  have hpos := specWindow_pos agent_type
  rcases Nat.eq_zero_or_pos (specWindow agent_type) with h0 | _
  · omega
  · by_cases hm : messages = []
    · subst hm; simp
    · simp only [hm, if_false]
      have hne : specWindow agent_type ≠ 0 := by omega
      simp only [orDefaultMax, hne, if_false]
      by_cases hle : messages.length ≤ specWindow agent_type
      · have : min (specWindow agent_type) messages.length = messages.length := by omega
        simp [hle, this]
      · have : min (specWindow agent_type) messages.length = specWindow agent_type := by omega
        simp [hle, this]

/-- **C10.** `fast_router_node` on a state with an empty messages list
returns the state unchanged (guarded `messages[-1]` access). -/
theorem fast_router_node_empty_messages (state : AssistantState)
    (h : state.messages = []) : fast_router_node state = state := by
  simp [fast_router_node, h]

/-- Witness for `fast_router_node_empty_messages` at the empty initial
state. -/
theorem fast_router_node_empty_messages_witness :
    fast_router_node {} = ({} : AssistantState) :=
  fast_router_node_empty_messages {} rfl

/-- Every decision produced by the inner pattern loop is a direct route
at or above the threshold with its agent set. -/
theorem scanAgentPatterns_some (ql : String) (context : Option RouteContext)
    (agent_type : AgentType) :
    ∀ ps d, scanAgentPatterns ql context agent_type ps = some d →
      d.route = Route.direct ∧ DIRECT_ROUTE_THRESHOLD ≤ d.confidence ∧
        d.agent = some agent_type := by
  intro ps
  induction ps with
  | nil => intro d h; simp [scanAgentPatterns] at h
  | cons p ps ih =>
    intro d h
    rw [scanAgentPatterns] at h
    by_cases hs : p.search ql = true
    · rw [if_pos hs] at h
      by_cases hc : DIRECT_ROUTE_THRESHOLD ≤ patternConfidence agent_type context
      · rw [if_pos hc] at h
        cases h
        exact ⟨rfl, hc, rfl⟩
      · rw [if_neg hc] at h
        exact ih d h
    · rw [if_neg hs] at h
      exact ih d h

/-- Every decision produced by the pattern phase is a direct route at or
above the threshold with its agent set. -/
theorem try_pattern_matching_some (ql : String) (context : Option RouteContext) :
    ∀ table d, scanPatternTable ql context table = some d →
      d.route = Route.direct ∧ DIRECT_ROUTE_THRESHOLD ≤ d.confidence ∧
        d.agent.isSome := by
  intro table
  induction table with
  | nil => intro d h; simp [scanPatternTable] at h
  | cons e rest ih =>
    intro d h
    rw [scanPatternTable] at h
    cases he : scanAgentPatterns ql context e.1 e.2 with
    | some d0 =>
      rw [he] at h
      obtain ⟨h₁, h₂, h₃⟩ := scanAgentPatterns_some ql context e.1 e.2 d0 he
      cases h
      exact ⟨h₁, h₂, by simp [h₃]⟩
    | none =>
      rw [he] at h
      exact ih d h

/-- Every decision produced by the keyword phase is a direct route at or
above the threshold with its agent set. -/
theorem try_keyword_scoring_some (ql : String) (context : Option RouteContext)
    (d : RouterDecision) (h : try_keyword_scoring ql context = some d) :
    d.route = Route.direct ∧ DIRECT_ROUTE_THRESHOLD ≤ d.confidence ∧
      d.agent.isSome := by
  rw [try_keyword_scoring] at h
  set scores := KEYWORD_WEIGHTS.map
    (fun p => (p.1, calculate_keyword_score ql p.2)) with hscores
  by_cases he : scores.isEmpty = true
  · rw [if_pos he] at h; cases h
  · rw [if_neg he] at h
    set sorted := sortByScoreDesc scores
    set winnerPair := sorted.headD (AgentType.education, 0)
    set runner_up_score :=
      if sorted.length > 1 then (sorted[1]?.getD (AgentType.education, 0)).2 else 0
    by_cases hc : DIRECT_ROUTE_THRESHOLD ≤
        calculate_confidence winnerPair.2 runner_up_score context winnerPair.1
    · rw [if_pos hc] at h
      cases h
      exact ⟨rfl, hc, by simp⟩
    · rw [if_neg hc] at h; cases h

/-- The pattern table of `scanPatternTable` as invoked by `fast_route`. -/
theorem try_pattern_matching_def (ql : String) (context : Option RouteContext) :
    try_pattern_matching ql context = scanPatternTable ql context EXACT_PATTERNS := rfl

/-- **C8.** A `RouterDecision` of the Fast Router has `route=Direct` iff
its confidence is at least 0.85 (boundary inclusive), and a direct route
always carries an agent. -/
theorem fast_route_direct_iff_confident (question : String)
    (context : Option RouteContext) :
    ((fast_route question context).route = Route.direct ↔
      85 / 100 ≤ (fast_route question context).confidence) ∧
    ((fast_route question context).route = Route.direct →
      (fast_route question context).agent.isSome) := by
  have hthr : DIRECT_ROUTE_THRESHOLD = 85 / 100 := rfl
  rw [fast_route]
  cases hp : try_pattern_matching (pyLower question) context with
  | some d =>
    obtain ⟨h₁, h₂, h₃⟩ :=
      try_pattern_matching_some (pyLower question) context EXACT_PATTERNS d hp
    rw [hthr] at h₂
    exact ⟨⟨fun _ => h₂, fun _ => h₁⟩, fun _ => h₃⟩
  | none =>
    cases hk : try_keyword_scoring (pyLower question) context with
    | some d =>
      obtain ⟨h₁, h₂, h₃⟩ := try_keyword_scoring_some (pyLower question) context d hk
      rw [hthr] at h₂
      exact ⟨⟨fun _ => h₂, fun _ => h₁⟩, fun _ => h₃⟩
    | none =>
      refine ⟨⟨fun hr => ?_, fun hc => ?_⟩, fun hr => ?_⟩
      · exact absurd hr (by simp [fallback_to_supervisor])
      · exact absurd hc (by norm_num [fallback_to_supervisor])
      · exact absurd hr (by simp [fallback_to_supervisor])

/-- Witness for `fast_route_direct_iff_confident` at the spec's Scenario
A question, which pattern-routes directly to the portfolio agent. -/
theorem fast_route_direct_iff_confident_witness :
    85 / 100 ≤ (fast_route "How is my portfolio performing?" none).confidence ∧
    (fast_route "How is my portfolio performing?" none).agent.isSome := by
  have h := fast_route_direct_iff_confident "How is my portfolio performing?" none
  have hd : (fast_route "How is my portfolio performing?" none).route = Route.direct := by
    with_unfolding_all rfl
  exact ⟨h.1.mp hd, h.2 hd⟩

/-- The confidence the keyword phase computes for a question (the
winner / runner-up part of `_try_keyword_scoring`, before the threshold
test). -/
def keyword_phase_confidence (ql : String) (context : Option RouteContext) : ℚ :=
  let scores : List (AgentType × ℚ) :=
    KEYWORD_WEIGHTS.map (fun p => (p.1, calculate_keyword_score ql p.2))
  let sorted := sortByScoreDesc scores
  let winnerPair := sorted.headD (AgentType.education, 0)
  let runner_up_score :=
    if sorted.length > 1 then (sorted[1]?.getD (AgentType.education, 0)).2 else 0
  calculate_confidence winnerPair.2 runner_up_score context winnerPair.1

/-- Below the threshold, the keyword phase declines. -/
theorem try_keyword_scoring_below_threshold (ql : String)
    (context : Option RouteContext)
    (h : keyword_phase_confidence ql context < DIRECT_ROUTE_THRESHOLD) :
    try_keyword_scoring ql context = none := by
  rw [try_keyword_scoring]
  rw [keyword_phase_confidence] at h
  by_cases he : (KEYWORD_WEIGHTS.map
      (fun p => (p.1, calculate_keyword_score ql p.2))).isEmpty = true
  · rw [if_pos he]
  · rw [if_neg he]
    rw [if_neg (not_le_of_lt h)]

/-- **C2 (counterexample).** On `"Tell me about Apple"` with no context
the Fast Router does not defer to the Supervisor with confidence below
0.85: the claim fails at this input. -/
theorem tell_me_about_apple_not_supervisor :
    ¬ ((fast_route "Tell me about Apple" none).route = Route.supervisor ∧
       (fast_route "Tell me about Apple" none).confidence < 85 / 100) := by
  intro h
  have hr : (fast_route "Tell me about Apple" none).route = Route.direct := by
    with_unfolding_all rfl
  rw [hr] at h
  exact Route.noConfusion h.1

/-- **C2 (amended).** `"Tell me about Apple"` (no context) hits the
education exact pattern `tell me about|teach me about|help me
understand`, so the router returns `route=Direct`, `agent=Education`,
confidence 0.95. -/
theorem tell_me_about_apple_routes_to_education :
    (fast_route "Tell me about Apple" none).route = Route.direct ∧
    (fast_route "Tell me about Apple" none).agent = some AgentType.education ∧
    (fast_route "Tell me about Apple" none).confidence = 95 / 100 := by
  refine ⟨?_, ?_, ?_⟩ <;> with_unfolding_all rfl

/-- **C3 (counterexample).** For `"portfolio"` the keyword phase
computes confidence 0.7 (< 0.85) and no pattern routes directly, yet the
decision the router returns carries confidence 0 — not the computed
0.7 — and empty `contextHints` instead of the top-3 keyword scores. -/
theorem keyword_confidence_not_carried_through :
    keyword_phase_confidence (pyLower "portfolio") none = 7 / 10 ∧
    try_pattern_matching (pyLower "portfolio") none = none ∧
    (fast_route "portfolio" none).route = Route.supervisor ∧
    (fast_route "portfolio" none).confidence = 0 ∧
    (fast_route "portfolio" none).context_hints = ContextHints.empty := by
  refine ⟨?_, ?_, ?_, ?_, ?_⟩ <;> with_unfolding_all rfl

/-- **C3 (amended).** When no exact pattern routes directly and the
keyword-phase confidence is below 0.85, the router returns the fixed
supervisor fallback decision: `route=Supervisor` with confidence 0 (the
computed confidence is discarded, not carried through) and empty
`contextHints` (the keyword scores are discarded as well). -/
theorem fast_route_low_confidence_fallback (question : String)
    (context : Option RouteContext)
    (hpat : try_pattern_matching (pyLower question) context = none)
    (hconf : keyword_phase_confidence (pyLower question) context < 85 / 100) :
    fast_route question context =
      { route := Route.supervisor, agent := none, confidence := 0,
        reasoning := "No confident pattern or keyword match found",
        context_hints := ContextHints.empty } := by
  rw [fast_route, hpat,
    try_keyword_scoring_below_threshold (pyLower question) context hconf]
  rfl

/-- Witness for `fast_route_low_confidence_fallback` at `"portfolio"`. -/
theorem fast_route_low_confidence_fallback_witness :
    fast_route "portfolio" none =
      { route := Route.supervisor, agent := none, confidence := 0,
        reasoning := "No confident pattern or keyword match found",
        context_hints := ContextHints.empty } :=
  fast_route_low_confidence_fallback "portfolio" none
    (by with_unfolding_all rfl)
    (of_decide_eq_true (by with_unfolding_all rfl))

/-- **C1 (code bug).** On a generation-service output containing no JSON
object, the Supervisor's fallback crashes for a question whose scan
reaches the tax branch: `_fallback_decision` executes `AgentType.TAX`,
but the `AgentType` enum has no member `TAX`, so an `AttributeError`
escapes instead of a structurally valid single-agent decision
(modelled by `none`). -/
theorem supervisor_fallback_crashes_on_tax_keywords :
    hasJsonBlock "I could not decide which agent fits." = false ∧
    parse_supervisor_response (fun _ => none)
      "I could not decide which agent fits." "I have a 401k question" = none ∧
    fallback_decision "I have a 401k question" "No JSON in response" = none := by
  refine ⟨?_, ?_, ?_⟩ <;> with_unfolding_all rfl

/-! ## Dispatcher lemmas -/

theorem execute_agent_node_plan_some (handlers : AgentType → List Msg → String)
    (s : AssistantState) (a : AgentType) (queue : List AgentType) (i : Nat) (b : Bool)
    (h : s.execution_plan = some ⟨queue, i, b⟩) :
    (execute_agent_node handlers s a).execution_plan = some ⟨queue, i + 1, b⟩ := by
  simp [execute_agent_node, h]

theorem execute_agent_node_plan_none (handlers : AgentType → List Msg → String)
    (s : AssistantState) (a : AgentType) (h : s.execution_plan = none) :
    (execute_agent_node handlers s a).execution_plan = none := by
  simp [execute_agent_node, h]

theorem execute_agent_node_completed (handlers : AgentType → List Msg → String)
    (s : AssistantState) (a : AgentType) :
    (execute_agent_node handlers s a).agents_completed =
      s.agents_completed ++ [a.value] := by
  simp [execute_agent_node]

theorem synthesizer_node_plan (s : AssistantState) :
    (synthesizer_node s).execution_plan = s.execution_plan := by
  simp [synthesizer_node]

theorem synthesizer_node_completed (s : AssistantState) :
    (synthesizer_node s).agents_completed = s.agents_completed := by
  simp [synthesizer_node]

theorem fast_router_node_plan (s : AssistantState) :
    (fast_router_node s).execution_plan = s.execution_plan := by
  unfold fast_router_node
  split <;> simp

theorem fast_router_node_completed (s : AssistantState) :
    (fast_router_node s).agents_completed = s.agents_completed := by
  unfold fast_router_node
  split <;> simp

/-- The sequence-router loop, started on a plan at cursor `i`, invokes
exactly the remaining queue in order, records cursor values
`i+1, …, len` after the successive completions, ends with the cursor at
`len`, and appends exactly the invoked agents to `agents_completed`. -/
theorem run_sequence_spec (handlers : AgentType → List Msg → String)
    (queue : List AgentType) (b : Bool) :
    ∀ (fuel i : Nat) (s : AssistantState),
      s.execution_plan = some ⟨queue, i, b⟩ →
      i ≤ queue.length →
      queue.length - i < fuel →
      (run_sequence handlers fuel s).2.map Prod.fst = queue.drop i ∧
      (run_sequence handlers fuel s).2.map Prod.snd =
        List.range' (i + 1) (queue.length - i) ∧
      (run_sequence handlers fuel s).1.execution_plan =
        some ⟨queue, queue.length, b⟩ ∧
      (run_sequence handlers fuel s).1.agents_completed =
        s.agents_completed ++ (queue.drop i).map AgentType.value := by
  intro fuel
  induction fuel with
  | zero => intro i s _ _ hfuel; omega
  | succ fuel ih =>
    intro i s hplan hle hfuel
    rw [run_sequence]
    have hroute : route_sequence s =
        (if h : i < queue.length then SeqStep.toAgent (queue.get ⟨i, h⟩)
         else SeqStep.synthesize) := by
      rw [route_sequence, hplan]
    by_cases hi : i < queue.length
    · rw [dif_pos hi] at hroute
      rw [hroute]
      simp only
      set s2 := execute_agent_node handlers s (queue.get ⟨i, hi⟩) with hs2
      have hplan2 : s2.execution_plan = some ⟨queue, i + 1, b⟩ :=
        execute_agent_node_plan_some handlers s _ queue i b hplan
      have hidx : planIndex s2 = i + 1 := by rw [planIndex, hplan2]
      obtain ⟨h₁, h₂, h₃, h₄⟩ := ih (i + 1) s2 hplan2 (by omega) (by omega)
      have hdrop : queue.drop i = queue.get ⟨i, hi⟩ :: queue.drop (i + 1) :=
        List.drop_eq_getElem_cons hi
      refine ⟨?_, ?_, h₃, ?_⟩
      · simp only [List.map_cons, h₁, hdrop]
      · simp only [List.map_cons, h₂, hidx]
        have : queue.length - i = (queue.length - (i + 1)) + 1 := by omega
        rw [this, List.range'_succ]
      · rw [h₄, execute_agent_node_completed, hdrop, List.map_cons, List.append_assoc]
        rfl
    · rw [dif_neg hi] at hroute
      rw [hroute]
      have hieq : i = queue.length := by omega
      subst hieq
      refine ⟨by simp, by simp, ?_, by simp [synthesizer_node_completed]⟩
      rw [synthesizer_node_plan, hplan]

theorem supervisor_node_completed (decision : SupervisorDecision) (s : AssistantState) :
    (supervisor_node decision s).agents_completed = s.agents_completed := by
  simp [supervisor_node]

theorem supervisor_node_decision (decision : SupervisorDecision) (s : AssistantState) :
    (supervisor_node decision s).supervisor_decision = some decision := by
  simp [supervisor_node]

theorem supervisor_node_plan_multi (decision : SupervisorDecision) (s : AssistantState)
    (hmode : decision.execution_mode ≠ Mode.single) :
    (supervisor_node decision s).execution_plan =
      some ⟨decision.primary_agent :: decision.secondary_agents, 0, true⟩ := by
  cases hm : decision.execution_mode <;> simp_all [supervisor_node]

theorem supervisor_node_plan_single (decision : SupervisorDecision) (s : AssistantState)
    (hmode : decision.execution_mode = Mode.single) :
    (supervisor_node decision s).execution_plan = none := by
  simp [supervisor_node, hmode]

theorem AgentType.value_injective : Function.Injective AgentType.value := by
  intro a b h
  cases a <;> cases b <;> simp_all [AgentType.value]

/-- Full behaviour of the dispatcher for a multi-agent supervisor
decision (`execution_mode` sequential or parallel — the dispatcher
executes both sequentially): the invocation trace is exactly
`[primary]+secondary` with cursor values `1, …, len`, the final plan has
its cursor at `len`, and exactly the queue is appended to
`agents_completed`. -/
theorem dispatch_multi_spec (handlers : AgentType → List Msg → String)
    (decision : SupervisorDecision) (s : AssistantState)
    (hmode : decision.execution_mode ≠ Mode.single) :
    (dispatch_after_supervisor handlers decision s).2.map Prod.fst =
      decision.primary_agent :: decision.secondary_agents ∧
    (dispatch_after_supervisor handlers decision s).2.map Prod.snd =
      List.range' 1 (decision.secondary_agents.length + 1) ∧
    (dispatch_after_supervisor handlers decision s).1.execution_plan =
      some ⟨decision.primary_agent :: decision.secondary_agents,
            decision.secondary_agents.length + 1, true⟩ ∧
    (dispatch_after_supervisor handlers decision s).1.agents_completed =
      s.agents_completed ++
        (decision.primary_agent :: decision.secondary_agents).map AgentType.value := by
  set queue := decision.primary_agent :: decision.secondary_agents with hqueue
  have hlen : queue.length = decision.secondary_agents.length + 1 := by
    rw [hqueue]; simp
  rw [dispatch_after_supervisor]
  have hplan1 := supervisor_node_plan_multi decision s hmode
  have ha0 : route_after_supervisor (supervisor_node decision s) =
      decision.primary_agent := by
    rw [route_after_supervisor, supervisor_node_decision]
    simp [hmode]
  rw [ha0]
  set s1 := supervisor_node decision s with hs1
  set s2 := execute_agent_node handlers s1 decision.primary_agent with hs2
  have hplan2 : s2.execution_plan = some ⟨queue, 1, true⟩ :=
    execute_agent_node_plan_some handlers s1 _ queue 0 true hplan1
  have hidx : planIndex s2 = 1 := by rw [planIndex, hplan2]
  have hcomp2 : s2.agents_completed =
      s.agents_completed ++ [decision.primary_agent.value] := by
    rw [hs2, execute_agent_node_completed, hs1, supervisor_node_completed]
  have hra : route_after_agent s2 = AfterAgent.toSequenceRouter := by
    rw [route_after_agent, if_pos]
    rw [hplan2]; rfl
  have hfuel : planFuel s2 = queue.length + 1 := by
    rw [planFuel, hplan2]
  rw [run_after_agent, hra]
  obtain ⟨h₁, h₂, h₃, h₄⟩ :=
    run_sequence_spec handlers queue true (planFuel s2) 1 s2 hplan2
      (by omega) (by omega)
  have hdrop : queue.drop 1 = decision.secondary_agents := by rw [hqueue]; rfl
  refine ⟨?_, ?_, ?_, ?_⟩
  · simp only [List.map_cons, h₁, hdrop, hqueue]
  · simp only [List.map_cons, h₂, hidx, hlen, Nat.add_sub_cancel, List.range'_succ]
  · rw [h₃, hlen]
  · rw [h₄, hcomp2, hdrop, hqueue, List.map_cons, List.append_assoc]
    rfl

/-- Behaviour of the dispatcher for a single-agent supervisor decision:
one invocation of the primary agent, no execution plan. -/
theorem dispatch_single_spec (handlers : AgentType → List Msg → String)
    (decision : SupervisorDecision) (s : AssistantState)
    (hmode : decision.execution_mode = Mode.single) :
    (dispatch_after_supervisor handlers decision s).2.map Prod.fst =
      [decision.primary_agent] ∧
    (dispatch_after_supervisor handlers decision s).1.execution_plan = none ∧
    (dispatch_after_supervisor handlers decision s).1.agents_completed =
      s.agents_completed ++ [decision.primary_agent.value] := by
  rw [dispatch_after_supervisor]
  have hplan1 : (supervisor_node decision s).execution_plan = none :=
    supervisor_node_plan_single decision s hmode
  have ha0 : route_after_supervisor (supervisor_node decision s) =
      decision.primary_agent := by
    rw [route_after_supervisor, supervisor_node_decision]
    simp [hmode]
  rw [ha0]
  set s1 := supervisor_node decision s with hs1
  set s2 := execute_agent_node handlers s1 decision.primary_agent with hs2
  have hplan2 : s2.execution_plan = none :=
    execute_agent_node_plan_none handlers s1 _ hplan1
  have hra : route_after_agent s2 = AfterAgent.toEnd := by
    rw [route_after_agent, if_neg]
    rw [hplan2]; simp
  rw [run_after_agent, hra]
  refine ⟨rfl, hplan2, ?_⟩
  rw [hs2, execute_agent_node_completed, hs1, supervisor_node_completed]

end FinanceAssistant

namespace FinanceAssistant

/-- **C5.** For a sequential `SupervisorDecision`, the dispatcher
invokes exactly the queue `[primary]+secondary` in that order; the plan
cursor after the k-th completed handler is exactly k (it increases by
exactly one per completion and reaches `len(queue)` only after the last
handler, where it stays in the final state). -/
theorem dispatch_sequential_execution_order
    (handlers : AgentType → List Msg → String)
    (decision : SupervisorDecision) (s : AssistantState)
    (hmode : decision.execution_mode = Mode.sequential) :
    (dispatch_after_supervisor handlers decision s).2.map Prod.fst =
      decision.primary_agent :: decision.secondary_agents ∧
    (dispatch_after_supervisor handlers decision s).2.map Prod.snd =
      List.range' 1 (decision.secondary_agents.length + 1) ∧
    (dispatch_after_supervisor handlers decision s).1.execution_plan =
      some ⟨decision.primary_agent :: decision.secondary_agents,
            decision.secondary_agents.length + 1, true⟩ := by
  obtain ⟨h₁, h₂, h₃, _⟩ :=
    dispatch_multi_spec handlers decision s (by simp [hmode])
  exact ⟨h₁, h₂, h₃⟩

end FinanceAssistant

namespace FinanceAssistant

/-! ## Concrete fixtures used by witnesses and counterexamples -/

/-- A concrete handler table (the handlers are external collaborators). -/
def handlers0 : AgentType → List Msg → String :=
  fun a _ => a.value ++ " analysis result"

/-- A fresh request state whose question routes to the supervisor. -/
def stateHello : AssistantState :=
  { messages := [{ role := "user", content := "hello" }] }

/-- A sequential two-agent supervisor decision. -/
def decGoalPortfolio : SupervisorDecision :=
  { primary_agent := .goal_planning, secondary_agents := [.portfolio],
    execution_mode := .sequential, reasoning := "plan then check holdings" }

/-- A sequential decision whose secondary list repeats the primary. -/
def decDupPortfolio : SupervisorDecision :=
  { primary_agent := .portfolio, secondary_agents := [.portfolio],
    execution_mode := .sequential, reasoning := "duplicate" }

/-- A sequential decision with no secondary agents (accepted by the
parser). -/
def decSeqEduNoSec : SupervisorDecision :=
  { primary_agent := .education, secondary_agents := [],
    execution_mode := .sequential, reasoning := "route to education" }

/-- Witness for `dispatch_sequential_execution_order` on a concrete
two-agent plan: invocations `[goal_planning, portfolio]`, cursor values
`[1, 2]`. -/
theorem dispatch_sequential_execution_order_witness :
    (dispatch_after_supervisor handlers0 decGoalPortfolio stateHello).2.map Prod.fst =
      [AgentType.goal_planning, AgentType.portfolio] ∧
    (dispatch_after_supervisor handlers0 decGoalPortfolio stateHello).2.map Prod.snd =
      [1, 2] := by
  have h := dispatch_sequential_execution_order handlers0 decGoalPortfolio stateHello rfl
  exact ⟨h.1, by rw [h.2.1]; rfl⟩

/-- **C9 (counterexample).** A `SupervisorDecision` whose secondary list
repeats the primary agent makes the dispatcher invoke the portfolio
handler twice within one request. -/
theorem portfolio_handler_invoked_twice :
    (dispatch_after_supervisor handlers0 decDupPortfolio stateHello).1.agents_completed =
      ["portfolio", "portfolio"] ∧
    ¬ ((dispatch_after_supervisor handlers0 decDupPortfolio
        stateHello).1.agents_completed.count "portfolio" ≤ 1) := by
  have h := (dispatch_multi_spec handlers0 decDupPortfolio stateHello (by decide)).2.2.2
  have hcomp : (dispatch_after_supervisor handlers0 decDupPortfolio
      stateHello).1.agents_completed = ["portfolio", "portfolio"] := by
    rw [h]; rfl
  refine ⟨hcomp, ?_⟩
  rw [hcomp]
  decide

/-- **C9 (amended).** The dispatcher performs no deduplication: each
agent is invoked once per occurrence in `[primary]+secondary`.  When
that list is duplicate-free, no handler is invoked more than once in
the request. -/
theorem dispatch_nodup_handlers (handlers : AgentType → List Msg → String)
    (decision : SupervisorDecision) (s : AssistantState)
    (hfresh : s.agents_completed = [])
    (hnodup : (decision.primary_agent :: decision.secondary_agents).Nodup) :
    (dispatch_after_supervisor handlers decision s).1.agents_completed.Nodup := by
  cases hmode : decision.execution_mode
  case single =>
    obtain ⟨_, _, h⟩ := dispatch_single_spec handlers decision s hmode
    rw [h, hfresh]
    simp
  case sequential =>
    obtain ⟨_, _, _, h⟩ := dispatch_multi_spec handlers decision s (by simp [hmode])
    rw [h, hfresh, List.nil_append]
    exact hnodup.map AgentType.value_injective
  case parallel =>
    obtain ⟨_, _, _, h⟩ := dispatch_multi_spec handlers decision s (by simp [hmode])
    rw [h, hfresh, List.nil_append]
    exact hnodup.map AgentType.value_injective

/-- Witness for `dispatch_nodup_handlers` on a duplicate-free two-agent
decision. -/
theorem dispatch_nodup_handlers_witness :
    (dispatch_after_supervisor handlers0 decGoalPortfolio
      stateHello).1.agents_completed.Nodup :=
  dispatch_nodup_handlers handlers0 decGoalPortfolio stateHello rfl (by decide)

/-- **C4 (amended).** In the final state of a request started on a
plan-free state, an `ExecutionPlan` is present iff the fast router
deferred to the Supervisor and the supervisor decision's execution mode
is not `single`.  (Since `sequential` with an empty secondary list is
accepted, plan presence does **not** imply that more than one handler
was scheduled.) -/
theorem run_pipeline_plan_iff (handlers : AgentType → List Msg → String)
    (decision : SupervisorDecision) (s0 : AssistantState)
    (hplan : s0.execution_plan = none)
    (sf : AssistantState) (tr : List (AgentType × Nat))
    (hrun : run_pipeline handlers decision s0 = some (sf, tr)) :
    sf.execution_plan.isSome = true ↔
      (route_after_fast_router (fast_router_node s0) =
          some AfterFastRouter.toSupervisor ∧
        decision.execution_mode ≠ Mode.single) := by
  rw [run_pipeline] at hrun
  cases hroute : route_after_fast_router (fast_router_node s0) with
  | none => rw [hroute] at hrun; cases hrun
  | some t =>
    rw [hroute] at hrun
    cases t with
    | toSupervisor =>
      simp only [Option.some.injEq] at hrun
      have hsf : sf =
          (dispatch_after_supervisor handlers decision (fast_router_node s0)).1 := by
        rw [hrun]
      cases hmode : decision.execution_mode
      case single =>
        obtain ⟨_, hpl, _⟩ :=
          dispatch_single_spec handlers decision (fast_router_node s0) hmode
        rw [hsf, hpl]
        simp [hmode]
      case sequential =>
        obtain ⟨_, _, hpl, _⟩ :=
          dispatch_multi_spec handlers decision (fast_router_node s0) (by simp [hmode])
        rw [hsf, hpl]
        simp [hmode]
      case parallel =>
        obtain ⟨_, _, hpl, _⟩ :=
          dispatch_multi_spec handlers decision (fast_router_node s0) (by simp [hmode])
        rw [hsf, hpl]
        simp [hmode]
    | toAgent a =>
      have hplan1 : (fast_router_node s0).execution_plan = none := by
        rw [fast_router_node_plan, hplan]
      have hplan2 := execute_agent_node_plan_none handlers (fast_router_node s0) a hplan1
      have hra : route_after_agent
          (execute_agent_node handlers (fast_router_node s0) a) = AfterAgent.toEnd := by
        rw [route_after_agent, if_neg]
        rw [hplan2]; simp
      have hend : run_after_agent handlers
          (execute_agent_node handlers (fast_router_node s0) a) =
          (execute_agent_node handlers (fast_router_node s0) a, []) := by
        rw [run_after_agent, hra]
      simp only [hend, Option.some.injEq, Prod.mk.injEq] at hrun
      rw [← hrun.1, hplan2]
      simp [hroute]

/-- **C4 (counterexample).** A request whose supervisor decision is
`execution_mode="sequential"` with no secondary agents invokes exactly
one handler yet ends with a non-nil `ExecutionPlan` (queue of length 1,
cursor 1): plan presence is not equivalent to more than one scheduled
handler. -/
theorem single_handler_run_with_plan :
    (run_pipeline handlers0 decSeqEduNoSec stateHello).map
        (fun r => (r.1.agents_completed, r.1.execution_plan)) =
      some (["education"],
        some { agents_queue := [AgentType.education], current_index := 1,
               needs_synthesis := true }) ∧
    parse_supervisor_response
      (fun _ => some { primary_agent := some "education", secondary_agents := [],
                       execution_mode := some "sequential",
                       reasoning := some "route to education" })
      "\x7b\x7d" "hello" = some decSeqEduNoSec := by
  constructor <;> with_unfolding_all rfl

/-- Witness for `run_pipeline_plan_iff`: on the concrete supervisor-path
run of `stateHello` the final plan is present. -/
theorem run_pipeline_plan_iff_witness :
    ((run_pipeline handlers0 decSeqEduNoSec stateHello).getD
        ({}, [])).1.execution_plan.isSome = true := by
  have hrun : run_pipeline handlers0 decSeqEduNoSec stateHello =
      some (((run_pipeline handlers0 decSeqEduNoSec stateHello).getD ({}, [])).1,
            ((run_pipeline handlers0 decSeqEduNoSec stateHello).getD ({}, [])).2) := by
    with_unfolding_all rfl
  exact (run_pipeline_plan_iff handlers0 decSeqEduNoSec stateHello rfl _ _ hrun).mpr
    ⟨by with_unfolding_all rfl, by decide⟩

/-! ## Spec-side synthesis format (written from the spec's description:
one labeled section per completed handler, in insertion order, then
exactly one closing summary naming the handler count) -/

/-- Simple concatenation of strings. -/
def concatList : List String → String
  | [] => ""
  | x :: xs => x ++ concatList xs

/-- The labeled section contributed by one completed handler. -/
def sectionFor (agent_name result : String) : String :=
  "**" ++ pyUpper agent_name ++ " ANALYSIS**" ++ "\n" ++ sepLine ++ "\n" ++
    result ++ "\n"

/-- The single closing summary, naming the handler count. -/
def closingSummary (n : Nat) : String :=
  sepLine ++ "\n" ++ "**COMPREHENSIVE ANALYSIS**" ++ "\n" ++ sepLine ++ "\n" ++
    "Based on the analysis from " ++ toString n ++
    " specialized agents above, you now have a complete answer to your question."

/-- Spec-side synthesis of several handler results: the handler sections
in `agentResults` insertion (= completion) order, each followed by a
blank line, then exactly one closing summary naming the handler count. -/
def synthesisSpec (agent_results : List (String × String)) : String :=
  concatList (agent_results.map fun p => sectionFor p.1 p.2 ++ "\n") ++
    closingSummary agent_results.length

theorem pyJoin_cons_ne (sep x : String) (xs : List String) (h : xs ≠ []) :
    pyJoin sep (x :: xs) = x ++ sep ++ pyJoin sep xs := by
  cases xs with
  | nil => exact absurd rfl h
  | cons y ys => rfl

theorem pyJoin_sections (l : List (String × String)) (suf : List String)
    (h : suf ≠ []) :
    pyJoin "\n"
        ((l.flatMap fun p => ["**" ++ pyUpper p.1 ++ " ANALYSIS**", sepLine, p.2, ""])
          ++ suf) =
      concatList (l.map fun p => sectionFor p.1 p.2 ++ "\n") ++ pyJoin "\n" suf := by
  induction l with
  | nil => simp [concatList]
  | cons p l ih =>
    have hne : (l.flatMap fun p =>
        ["**" ++ pyUpper p.1 ++ " ANALYSIS**", sepLine, p.2, ""]) ++ suf ≠ [] := by
      simp [h]
    simp only [List.flatMap_cons, List.cons_append, List.nil_append, List.append_assoc]
    rw [pyJoin_cons_ne _ _ _ (by simp),
      pyJoin_cons_ne _ _ _ (by simp),
      pyJoin_cons_ne _ _ _ (by simp),
      pyJoin_cons_ne _ _ _ hne, ih]
    simp only [concatList, sectionFor, String.empty_append, String.append_assoc]

/-- The synthesizer's concatenation equals the spec-side format for
every list of handler results. -/
theorem synthesize_multi_eq_spec (agent_results : List (String × String)) :
    synthesize_multi_agent_results agent_results = synthesisSpec agent_results := by
  rw [synthesize_multi_agent_results, synthesisSpec]
  rw [pyJoin_sections agent_results _ (by simp)]
  rw [closingSummary]
  simp only [pyJoin, String.append_assoc]

end FinanceAssistant

namespace FinanceAssistant

/-- **C6.** Synthesis: with exactly one entry in `agentResults`,
`finalResponse` is that entry verbatim; with more than one entry it is
one labeled section per completed handler in insertion (= completion)
order followed by exactly one closing summary naming the handler
count. -/
theorem synthesizer_node_spec (s : AssistantState) :
    (∀ k v, s.agent_results = [(k, v)] →
      (synthesizer_node s).final_response = some v) ∧
    (1 < s.agent_results.length →
      (synthesizer_node s).final_response = some (synthesisSpec s.agent_results)) := by
  constructor
  · intro k v h
    simp [synthesizer_node, h]
  · intro h
    have hne : ¬ s.agent_results.length = 1 := by omega
    simp [synthesizer_node, hne, synthesize_multi_eq_spec]

/-- Witness for `synthesizer_node_spec`: a one-entry state returns the
entry verbatim; a two-entry state returns the spec-side format. -/
theorem synthesizer_node_spec_witness :
    (synthesizer_node { agent_results := [("market", "market says up")] }).final_response
        = some "market says up" ∧
    (synthesizer_node
        { agent_results := [("education", "edu answer"), ("portfolio", "pf answer")] }).final_response
        = some (synthesisSpec [("education", "edu answer"), ("portfolio", "pf answer")]) :=
  ⟨(synthesizer_node_spec _).1 "market" "market says up" rfl,
   (synthesizer_node_spec _).2 (by decide)⟩

end FinanceAssistant

